import Mathlib

/-!
Verification of `pyccl/power.py` (the Power-Spectrum Query Facade) against its
specification, via a shallow embedding in Lean 4.

Numbers are modelled as rationals.  A numpy value that is either a scalar
(0-dimensional) or a one-dimensional array is modelled by `Val`.  The external
compiled engine (`lib.sigM_vec`, `lib.sigmaR_vec`, `lib.sigmaV_vec`,
`lib.kNL_vec`) and the numpy transform `np.log10` are abstract: an `Engine`
record supplies them, and theorems quantify over it.  The Cosmological
Context is an explicit state record; Python's in-place mutation becomes
explicit state passing, and every engine-touching operation also returns the
list of calls it made to the context's engine, so that call order and the
exact arguments handed to the engine are provable facts.
-/

/-- A numpy-style value: a 0-dimensional scalar or a 1-dimensional array.
Embeds the `int | float | (n,) array_like` inputs and outputs of the module. -/
inductive Val where
  | scalar : ℚ → Val
  | array : List ℚ → Val
deriving DecidableEq, Repr

/-- `np.ndim`: 0 for a scalar, 1 for a one-dimensional array. -/
def Val.ndim : Val → Nat
  | .scalar _ => 0
  | .array _ => 1

/-- `np.atleast_1d`: promote a scalar to a length-1 array; leave arrays alone. -/
def atleast_1d : Val → List ℚ
  | .scalar x => [x]
  | .array xs => xs

/-- The C-level cosmology handle `cosmo.cosmo` that the vectorized engine
routines receive.  `sigma_computed` records whether the lazily built variance
tables exist (the state that `compute_sigma` ensures). -/
structure EngineHandle where
  hid : Nat
  sigma_computed : Bool
deriving DecidableEq, Repr

/-- A tabulated power spectrum stored in the context: its C-level handle
(`psp`, what `parse_pk2d` extracts for the engine) and its evaluator (what
`get_linear_power`/`get_nonlin_power` return; called as `pk(k, a, cosmo)`). -/
structure Pk2D where
  psp : Nat
  eval : Val → Val → EngineHandle → Val

/-- Errors surfaced by the facade: an engine error carrying the non-zero
status and the context's diagnostic state (what `check` raises), a
spectrum-resolution failure (what `parse_pk2d` raises), or an index error
(Python's `sigM[0]` on an empty engine result). -/
inductive CCLError where
  | engine (status : Int) (diag : String)
  | unknownSpectrum (id : String)
  | indexError
deriving DecidableEq, Repr

/-- The Cosmological Context.  `cosmo` is the engine handle, `h` and `sigma8`
the stored scalar parameters (`none` models the not-a-number sentinel for an
undefined sigma8), `diag` the diagnostic log/state attached to raised engine
errors, and `pk_linear`/`pk_nonlin` the registries of tabulated power spectra
keyed by string identifier. -/
structure Cosmo where
  cosmo : EngineHandle
  h : ℚ
  sigma8 : Option Val
  diag : String
  pk_linear : List (String × Pk2D)
  pk_nonlin : List (String × Pk2D)

/-- The external numerical engine: `np.log10` and the four vectorized
routines of `lib`.  Each routine takes the C-level handle, its specific
arguments, the array length and the incoming status accumulator, and returns
`(result_array, status)` exactly as in the SWIG binding. -/
structure Engine where
  log10 : ℚ → ℚ
  sigM_vec : EngineHandle → ℚ → List ℚ → Nat → Int → List ℚ × Int
  sigmaR_vec : EngineHandle → Nat → ℚ → List ℚ → Nat → Int → List ℚ × Int
  sigmaV_vec : EngineHandle → Nat → ℚ → List ℚ → Nat → Int → List ℚ × Int
  kNL_vec : EngineHandle → Nat → List ℚ → Nat → Int → List ℚ × Int

/-- One observable interaction of the facade with the context's engine-side
state: the `compute_sigma` table build, or one of the four vectorized engine
calls with the exact arguments passed. -/
inductive Event where
  | computeSigma
  | callSigM (h : EngineHandle) (a : ℚ) (logM : List ℚ) (len : Nat) (st : Int)
  | callSigmaR (h : EngineHandle) (psp : Nat) (a : ℚ) (R : List ℚ) (len : Nat) (st : Int)
  | callSigmaV (h : EngineHandle) (psp : Nat) (a : ℚ) (R : List ℚ) (len : Nat) (st : Int)
  | callKNL (h : EngineHandle) (psp : Nat) (a : List ℚ) (len : Nat) (st : Int)
deriving DecidableEq, Repr

/-- Result of one facade operation: the context after the call (Python
mutates it in place), the trace of engine interactions, and the returned
value or raised error. -/
structure Out where
  cosmo : Cosmo
  trace : List Event
  result : Except CCLError Val

/-- Modelled from the spec: `DEFAULT_POWER_SPECTRUM`, imported from the
package root (not in src/), is the default matter-matter auto-spectrum
identifier. -/
def DEFAULT_POWER_SPECTRUM : String := "delta_matter:delta_matter"

/-- Modelled from the spec: `check` (imported from the package root, not in
src/) translates a non-zero engine status into a raised error carrying the
context's diagnostic log/state, and does nothing on zero status. -/
def check (status : Int) (cosmo : Cosmo) : Except CCLError Unit :=
  if status = 0 then .ok () else .error (.engine status cosmo.diag)

/-- Modelled from the spec: `Cosmology.compute_sigma` (not in src/) is the
idempotent "ensure variance tables are computed" step: it lazily builds an
internal table on the context's engine handle and is safe to call
repeatedly. -/
def compute_sigma (c : Cosmo) : Cosmo :=
  { c with cosmo := { c.cosmo with sigma_computed := true } }

/-- Modelled from the spec: `Cosmology.parse_pk2d` (not in src/) resolves a
power-spectrum identifier to its engine handle; with `is_linear` set it looks
up only spectra tagged as linear, rejecting an identifier not registered
there. -/
def parse_pk2d (c : Cosmo) (id : String) (is_linear : Bool) : Except CCLError Nat :=
  match (if is_linear then c.pk_linear else c.pk_nonlin).lookup id with
  | some pk => .ok pk.psp
  | none => .error (.unknownSpectrum id)

/-- Modelled from the spec: `Cosmology._fill_params(sigma8=v)` (not in src/)
writes the named parameter into the context. -/
def fill_params_sigma8 (c : Cosmo) (v : Val) : Cosmo :=
  { c with sigma8 := some v }

/-- Modelled from the spec: `np.isnan(cosmo["sigma8"])` — the stored sigma8
is the not-a-number sentinel exactly when it is undefined. -/
def isnan_sigma8 (c : Cosmo) : Bool :=
  c.sigma8.isNone

/-- Modelled from the spec: `Cosmology.get_linear_power(name)` (not in src/)
retrieves the linear power spectrum registered under `name`. -/
def get_linear_power (c : Cosmo) (name : String) : Option Pk2D :=
  c.pk_linear.lookup name

/-- Modelled from the spec: `Cosmology.get_nonlin_power(name)` (not in src/)
retrieves the non-linear power spectrum registered under `name`. -/
def get_nonlin_power (c : Cosmo) (name : String) : Option Pk2D :=
  c.pk_nonlin.lookup name

/-- `linear_power(cosmo, k, a, *, p_of_k_a=DEFAULT_POWER_SPECTRUM)`:
`return cosmo.get_linear_power(p_of_k_a)(k, a, cosmo)`.  A missing
identifier is the lookup failure raised inside `get_linear_power`. -/
def linear_power (c : Cosmo) (k a : Val)
    (p_of_k_a : String) : Except CCLError Val :=
  match get_linear_power c p_of_k_a with
  | some pk => .ok (pk.eval k a c.cosmo)
  | none => .error (.unknownSpectrum p_of_k_a)

/-- `nonlin_power(cosmo, k, a, *, p_of_k_a=DEFAULT_POWER_SPECTRUM)`:
`return cosmo.get_nonlin_power(p_of_k_a)(k, a, cosmo)`. -/
def nonlin_power (c : Cosmo) (k a : Val)
    (p_of_k_a : String) : Except CCLError Val :=
  match get_nonlin_power c p_of_k_a with
  | some pk => .ok (pk.eval k a c.cosmo)
  | none => .error (.unknownSpectrum p_of_k_a)

/-- `linear_matter_power(cosmo, k, a)`:
`return cosmo.linear_power(k, a, p_of_k_a=DEFAULT_POWER_SPECTRUM)`.
Modelled from the spec: the bound method `cosmo.linear_power` (binding not in
src/) delegates to the module-level `linear_power`. -/
def linear_matter_power (c : Cosmo) (k a : Val) : Except CCLError Val :=
  linear_power c k a DEFAULT_POWER_SPECTRUM

/-- `nonlin_matter_power(cosmo, k, a)`:
`return cosmo.nonlin_power(k, a, p_of_k_a=DEFAULT_POWER_SPECTRUM)`.
Modelled from the spec: the bound method `cosmo.nonlin_power` (binding not in
src/) delegates to the module-level `nonlin_power`. -/
def nonlin_matter_power (c : Cosmo) (k a : Val) : Except CCLError Val :=
  nonlin_power c k a DEFAULT_POWER_SPECTRUM

/-- `sigmaM(cosmo, M, a)`: calls `cosmo.compute_sigma()`, forms
`logM = np.log10(np.atleast_1d(M))`, calls
`lib.sigM_vec(cosmo.cosmo, a, logM, len(logM), status)` with `status = 0`,
checks the status, and unwraps `sigM[0]` when `np.ndim(M) == 0`. -/
def sigmaM (e : Engine) (c : Cosmo) (M : Val) (a : ℚ) : Out :=
  let c1 := compute_sigma c
  let logM := (atleast_1d M).map e.log10
  let r := e.sigM_vec c1.cosmo a logM logM.length 0
  let tr := [Event.computeSigma,
             Event.callSigM c1.cosmo a logM logM.length 0]
  match check r.2 c1 with
  | .error err => ⟨c1, tr, .error err⟩
  | .ok _ =>
    if M.ndim = 0 then
      match r.1.head? with
      | some x => ⟨c1, tr, .ok (Val.scalar x)⟩
      | none => ⟨c1, tr, .error .indexError⟩
    else ⟨c1, tr, .ok (Val.array r.1)⟩

/-- `sigmaR(cosmo, R, a=1, *, p_of_k_a=DEFAULT_POWER_SPECTRUM)`: resolves
`psp = cosmo.parse_pk2d(p_of_k_a, is_linear=True)`, calls
`lib.sigmaR_vec(cosmo.cosmo, psp, a, R_use, R_use.size, status)` on
`R_use = np.atleast_1d(R)` with `status = 0`, checks the status, and unwraps
`sR[0]` when `np.ndim(R) == 0`. -/
def sigmaR (e : Engine) (c : Cosmo) (R : Val) (a : ℚ)
    (p_of_k_a : String) : Out :=
  match parse_pk2d c p_of_k_a true with
  | .error err => ⟨c, [], .error err⟩
  | .ok psp =>
    let R_use := atleast_1d R
    let r := e.sigmaR_vec c.cosmo psp a R_use R_use.length 0
    let tr := [Event.callSigmaR c.cosmo psp a R_use R_use.length 0]
    match check r.2 c with
    | .error err => ⟨c, tr, .error err⟩
    | .ok _ =>
      if R.ndim = 0 then
        match r.1.head? with
        | some x => ⟨c, tr, .ok (Val.scalar x)⟩
        | none => ⟨c, tr, .error .indexError⟩
      else ⟨c, tr, .ok (Val.array r.1)⟩

/-- `sigmaV(cosmo, R, a=1, *, p_of_k_a=DEFAULT_POWER_SPECTRUM)`: same shape
as `sigmaR`, calling `lib.sigmaV_vec`. -/
def sigmaV (e : Engine) (c : Cosmo) (R : Val) (a : ℚ)
    (p_of_k_a : String) : Out :=
  match parse_pk2d c p_of_k_a true with
  | .error err => ⟨c, [], .error err⟩
  | .ok psp =>
    let R_use := atleast_1d R
    let r := e.sigmaV_vec c.cosmo psp a R_use R_use.length 0
    let tr := [Event.callSigmaV c.cosmo psp a R_use R_use.length 0]
    match check r.2 c with
    | .error err => ⟨c, tr, .error err⟩
    | .ok _ =>
      if R.ndim = 0 then
        match r.1.head? with
        | some x => ⟨c, tr, .ok (Val.scalar x)⟩
        | none => ⟨c, tr, .error .indexError⟩
      else ⟨c, tr, .ok (Val.array r.1)⟩

/-- `sigma8(cosmo, *, p_of_k_a=DEFAULT_POWER_SPECTRUM)`:
`sig8 = cosmo.sigmaR(8/cosmo["h"], p_of_k_a=p_of_k_a)`, then writes the
value into the context with `cosmo._fill_params(sigma8=sig8)` exactly when
`np.isnan(cosmo["sigma8"])`, and returns `sig8`.  Modelled from the spec:
the bound method `cosmo.sigmaR` (binding not in src/) delegates to the
module-level `sigmaR`. -/
def sigma8 (e : Engine) (c : Cosmo)
    (p_of_k_a : String) : Out :=
  let r := sigmaR e c (Val.scalar (8 / c.h)) 1 p_of_k_a
  match r.result with
  | .error err => ⟨r.cosmo, r.trace, .error err⟩
  | .ok sig8 =>
    let c2 := if isnan_sigma8 c then fill_params_sigma8 c sig8 else c
    ⟨c2, r.trace, .ok sig8⟩

/-- `kNL(cosmo, a, *, p_of_k_a=DEFAULT_POWER_SPECTRUM)`: resolves
`psp = cosmo.parse_pk2d(p_of_k_a, is_linear=True)`, calls
`lib.kNL_vec(cosmo.cosmo, psp, a_use, a_use.size, status)` on
`a_use = np.atleast_1d(a)` with `status = 0`, checks the status, and unwraps
`knl[0]` when `np.ndim(a) == 0`. -/
def kNL (e : Engine) (c : Cosmo) (a : Val)
    (p_of_k_a : String) : Out :=
  match parse_pk2d c p_of_k_a true with
  | .error err => ⟨c, [], .error err⟩
  | .ok psp =>
    let a_use := atleast_1d a
    let r := e.kNL_vec c.cosmo psp a_use a_use.length 0
    let tr := [Event.callKNL c.cosmo psp a_use a_use.length 0]
    match check r.2 c with
    | .error err => ⟨c, tr, .error err⟩
    | .ok _ =>
      if a.ndim = 0 then
        match r.1.head? with
        | some x => ⟨c, tr, .ok (Val.scalar x)⟩
        | none => ⟨c, tr, .error .indexError⟩
      else ⟨c, tr, .ok (Val.array r.1)⟩

/-! ### Concrete sample instances used to instantiate the theorems -/

/-- A concrete tabulated linear spectrum. -/
def pkLinSample : Pk2D := ⟨11, fun _ _ _ => Val.scalar 2⟩

/-- A concrete tabulated non-linear spectrum. -/
def pkNlSample : Pk2D := ⟨12, fun _ _ _ => Val.scalar 9⟩

/-- A concrete context: `h = 7/10`, sigma8 undefined (NaN sentinel), the
default spectrum identifier registered both as linear and as non-linear. -/
def cosSample : Cosmo where
  cosmo := ⟨0, false⟩
  h := 7/10
  sigma8 := none
  diag := "log"
  pk_linear := [(DEFAULT_POWER_SPECTRUM, pkLinSample)]
  pk_nonlin := [(DEFAULT_POWER_SPECTRUM, pkNlSample)]

/-- The sample context with sigma8 already defined (not NaN). -/
def cosDefined : Cosmo := { cosSample with sigma8 := some (Val.scalar 42) }

/-- A context whose spectrum identifier is registered only among the
non-linear spectra. -/
def cosNlOnly : Cosmo := { cosSample with pk_linear := [] }

/-- A concrete engine: every vectorized routine succeeds (status 0) with an
array of the requested length. -/
def engOk : Engine where
  log10 := fun x => x - 1
  sigM_vec := fun _ _ _ n _ => (List.replicate n 5, 0)
  sigmaR_vec := fun _ _ _ _ n _ => (List.replicate n (4/5), 0)
  sigmaV_vec := fun _ _ _ _ n _ => (List.replicate n 3, 0)
  kNL_vec := fun _ _ _ n _ => (List.replicate n 7, 0)

/-- A concrete engine: every vectorized routine fails with status 2. -/
def engBad : Engine where
  log10 := fun x => x - 1
  sigM_vec := fun _ _ _ _ _ => ([], 2)
  sigmaR_vec := fun _ _ _ _ _ _ => ([], 2)
  sigmaV_vec := fun _ _ _ _ _ _ => ([], 2)
  kNL_vec := fun _ _ _ _ _ => ([], 2)

/-! ### Helper lemmas -/

/-- `sigmaR` never mutates the context. -/
lemma sigmaR_cosmo_eq (e : Engine) (c : Cosmo) (R : Val) (a : ℚ)
    (id : String) : (sigmaR e c R a id).cosmo = c := by
  simp only [sigmaR]
  split
  · rfl
  · split
    · rfl
    · split
      · split <;> rfl
      · rfl

/-- `sigmaV` never mutates the context. -/
lemma sigmaV_cosmo_eq (e : Engine) (c : Cosmo) (R : Val) (a : ℚ)
    (id : String) : (sigmaV e c R a id).cosmo = c := by
  simp only [sigmaV]
  split
  · rfl
  · split
    · rfl
    · split
      · split <;> rfl
      · rfl

/-- `kNL` never mutates the context. -/
lemma kNL_cosmo_eq (e : Engine) (c : Cosmo) (a : Val)
    (id : String) : (kNL e c a id).cosmo = c := by
  simp only [kNL]
  split
  · rfl
  · split
    · rfl
    · split
      · split <;> rfl
      · rfl

/-- The only state change `sigmaM` makes is the `compute_sigma` table
build. -/
lemma sigmaM_cosmo_eq (e : Engine) (c : Cosmo) (M : Val) (a : ℚ) :
    (sigmaM e c M a).cosmo = compute_sigma c := by
  simp only [sigmaM]
  split
  · rfl
  · split
    · split <;> rfl
    · rfl

/-- The result of `sigmaR` does not depend on the stored sigma8
parameter. -/
lemma sigmaR_result_sigma8_indep (e : Engine) (c : Cosmo) (v : Option Val)
    (R : Val) (a : ℚ) (id : String) :
    (sigmaR e { c with sigma8 := v } R a id).result
      = (sigmaR e c R a id).result := by
  cases hp : List.lookup id c.pk_linear with
  | none =>
    have h1 : parse_pk2d { c with sigma8 := v } id true
        = .error (.unknownSpectrum id) := by simp [parse_pk2d, hp]
    have h2 : parse_pk2d c id true
        = .error (.unknownSpectrum id) := by simp [parse_pk2d, hp]
    simp only [sigmaR, h1, h2]
  | some pk =>
    have h1 : parse_pk2d { c with sigma8 := v } id true = .ok pk.psp := by
      simp [parse_pk2d, hp]
    have h2 : parse_pk2d c id true = .ok pk.psp := by
      simp [parse_pk2d, hp]
    simp only [sigmaR, h1, h2]
    have hc : check
        (e.sigmaR_vec c.cosmo pk.psp a (atleast_1d R) (atleast_1d R).length 0).2
        { c with sigma8 := v }
        = check
        (e.sigmaR_vec c.cosmo pk.psp a (atleast_1d R) (atleast_1d R).length 0).2
        c := rfl
    rw [hc]
    cases hs : check
        (e.sigmaR_vec c.cosmo pk.psp a (atleast_1d R) (atleast_1d R).length 0).2
        c with
    | error err => rfl
    | ok u =>
      by_cases hnd : R.ndim = 0
      · rw [if_pos hnd, if_pos hnd]
        cases hh : (e.sigmaR_vec c.cosmo pk.psp a (atleast_1d R)
            (atleast_1d R).length 0).1.head? <;> rfl
      · rw [if_neg hnd, if_neg hnd]

/-- `sigma8` either leaves the context unchanged or performs exactly the
sigma8 parameter fill. -/
lemma sigma8_cosmo_cases (e : Engine) (c : Cosmo) (id : String) :
    (sigma8 e c id).cosmo = c ∨
    ∃ v, (sigma8 e c id).cosmo = fill_params_sigma8 c v := by
  simp only [sigma8]
  cases hr : (sigmaR e c (Val.scalar (8 / c.h)) 1 id).result with
  | error err => exact Or.inl (sigmaR_cosmo_eq e c (Val.scalar (8 / c.h)) 1 id)
  | ok s =>
    by_cases hn : isnan_sigma8 c
    · right
      exact ⟨s, by simp [hn]⟩
    · left
      simp [hn]

/-- The table build leaves the diagnostic state untouched. -/
lemma compute_sigma_diag (c : Cosmo) : (compute_sigma c).diag = c.diag := rfl

/-- `sigmaM` on non-zero engine status raises the engine error with the
context's diagnostic state. -/
lemma sigmaM_err (e : Engine) (c : Cosmo) (M : Val) (a : ℚ) (ys : List ℚ)
    (s : Int)
    (he : e.sigM_vec (compute_sigma c).cosmo a ((atleast_1d M).map e.log10)
      (atleast_1d M).length 0 = (ys, s)) (hs : s ≠ 0) :
    (sigmaM e c M a).result = .error (.engine s c.diag) := by
  simp [sigmaM, List.length_map, he, check, hs, compute_sigma_diag]

/-- `sigmaM` on a scalar mass with a successful engine call returns a
scalar. -/
lemma sigmaM_ok_scalar (e : Engine) (c : Cosmo) (x a y : ℚ)
    (he : e.sigM_vec (compute_sigma c).cosmo a [e.log10 x] 1 0 = ([y], 0)) :
    (sigmaM e c (Val.scalar x) a).result = .ok (Val.scalar y) := by
  simp [sigmaM, atleast_1d, he, check, Val.ndim]

/-- `sigmaM` on an array of masses with a successful engine call returns the
engine's array. -/
lemma sigmaM_ok_array (e : Engine) (c : Cosmo) (xs : List ℚ) (a : ℚ)
    (ys : List ℚ)
    (he : e.sigM_vec (compute_sigma c).cosmo a (xs.map e.log10) xs.length 0
      = (ys, 0)) :
    (sigmaM e c (Val.array xs) a).result = .ok (Val.array ys) := by
  simp [sigmaM, atleast_1d, List.length_map, he, check, Val.ndim]

/-- `sigmaR` on non-zero engine status raises the engine error with the
context's diagnostic state. -/
lemma sigmaR_err (e : Engine) (c : Cosmo) (R : Val) (a : ℚ) (id : String)
    (psp : Nat) (ys : List ℚ) (s : Int)
    (hp : parse_pk2d c id true = .ok psp)
    (he : e.sigmaR_vec c.cosmo psp a (atleast_1d R) (atleast_1d R).length 0
      = (ys, s)) (hs : s ≠ 0) :
    (sigmaR e c R a id).result = .error (.engine s c.diag) := by
  simp [sigmaR, hp, he, check, hs]

/-- `sigmaR` on a scalar radius with a successful engine call returns a
scalar. -/
lemma sigmaR_ok_scalar (e : Engine) (c : Cosmo) (x a y : ℚ) (id : String)
    (psp : Nat)
    (hp : parse_pk2d c id true = .ok psp)
    (he : e.sigmaR_vec c.cosmo psp a [x] 1 0 = ([y], 0)) :
    (sigmaR e c (Val.scalar x) a id).result = .ok (Val.scalar y) := by
  simp [sigmaR, hp, atleast_1d, he, check, Val.ndim]

/-- `sigmaR` on an array of radii with a successful engine call returns the
engine's array. -/
lemma sigmaR_ok_array (e : Engine) (c : Cosmo) (xs : List ℚ) (a : ℚ)
    (id : String) (psp : Nat) (ys : List ℚ)
    (hp : parse_pk2d c id true = .ok psp)
    (he : e.sigmaR_vec c.cosmo psp a xs xs.length 0 = (ys, 0)) :
    (sigmaR e c (Val.array xs) a id).result = .ok (Val.array ys) := by
  simp [sigmaR, hp, atleast_1d, he, check, Val.ndim]

/-- `sigmaV` on non-zero engine status raises the engine error with the
context's diagnostic state. -/
lemma sigmaV_err (e : Engine) (c : Cosmo) (R : Val) (a : ℚ) (id : String)
    (psp : Nat) (ys : List ℚ) (s : Int)
    (hp : parse_pk2d c id true = .ok psp)
    (he : e.sigmaV_vec c.cosmo psp a (atleast_1d R) (atleast_1d R).length 0
      = (ys, s)) (hs : s ≠ 0) :
    (sigmaV e c R a id).result = .error (.engine s c.diag) := by
  simp [sigmaV, hp, he, check, hs]

/-- `sigmaV` on a scalar radius with a successful engine call returns a
scalar. -/
lemma sigmaV_ok_scalar (e : Engine) (c : Cosmo) (x a y : ℚ) (id : String)
    (psp : Nat)
    (hp : parse_pk2d c id true = .ok psp)
    (he : e.sigmaV_vec c.cosmo psp a [x] 1 0 = ([y], 0)) :
    (sigmaV e c (Val.scalar x) a id).result = .ok (Val.scalar y) := by
  simp [sigmaV, hp, atleast_1d, he, check, Val.ndim]

/-- `sigmaV` on an array of radii with a successful engine call returns the
engine's array. -/
lemma sigmaV_ok_array (e : Engine) (c : Cosmo) (xs : List ℚ) (a : ℚ)
    (id : String) (psp : Nat) (ys : List ℚ)
    (hp : parse_pk2d c id true = .ok psp)
    (he : e.sigmaV_vec c.cosmo psp a xs xs.length 0 = (ys, 0)) :
    (sigmaV e c (Val.array xs) a id).result = .ok (Val.array ys) := by
  simp [sigmaV, hp, atleast_1d, he, check, Val.ndim]

/-- `kNL` on non-zero engine status raises the engine error with the
context's diagnostic state. -/
lemma kNL_err (e : Engine) (c : Cosmo) (aV : Val) (id : String)
    (psp : Nat) (ys : List ℚ) (s : Int)
    (hp : parse_pk2d c id true = .ok psp)
    (he : e.kNL_vec c.cosmo psp (atleast_1d aV) (atleast_1d aV).length 0
      = (ys, s)) (hs : s ≠ 0) :
    (kNL e c aV id).result = .error (.engine s c.diag) := by
  simp [kNL, hp, he, check, hs]

/-- `kNL` on a scalar scale factor with a successful engine call returns a
scalar. -/
lemma kNL_ok_scalar (e : Engine) (c : Cosmo) (x y : ℚ) (id : String)
    (psp : Nat)
    (hp : parse_pk2d c id true = .ok psp)
    (he : e.kNL_vec c.cosmo psp [x] 1 0 = ([y], 0)) :
    (kNL e c (Val.scalar x) id).result = .ok (Val.scalar y) := by
  simp [kNL, hp, atleast_1d, he, check, Val.ndim]

/-- `kNL` on an array of scale factors with a successful engine call returns
the engine's array. -/
lemma kNL_ok_array (e : Engine) (c : Cosmo) (xs : List ℚ) (id : String)
    (psp : Nat) (ys : List ℚ)
    (hp : parse_pk2d c id true = .ok psp)
    (he : e.kNL_vec c.cosmo psp xs xs.length 0 = (ys, 0)) :
    (kNL e c (Val.array xs) id).result = .ok (Val.array ys) := by
  simp [kNL, hp, atleast_1d, he, check, Val.ndim]

/-- `sigma8` returns whatever `sigmaR` returns at radius `8 / h` and scale
factor 1 with the same identifier. -/
lemma sigma8_result_eq (e : Engine) (c : Cosmo) (id : String) :
    (sigma8 e c id).result
      = (sigmaR e c (Val.scalar (8 / c.h)) 1 id).result := by
  simp only [sigma8]
  cases hr : (sigmaR e c (Val.scalar (8 / c.h)) 1 id).result with
  | error err => rfl
  | ok s => rfl

/-- `sigmaM`'s trace: the table build, then the single engine call on the
once-transformed log-masses. -/
lemma sigmaM_trace_eq (e : Engine) (c : Cosmo) (M : Val) (a : ℚ) :
    (sigmaM e c M a).trace
      = [Event.computeSigma,
         Event.callSigM (compute_sigma c).cosmo a ((atleast_1d M).map e.log10)
           ((atleast_1d M).map e.log10).length 0] := by
  simp only [sigmaM]
  split
  · rfl
  · split
    · split <;> rfl
    · rfl

/-! ### Claim theorems -/

/-- C5: for all identical inputs, `linear_matter_power` equals `linear_power`
at the default matter power-spectrum identifier, and `nonlin_matter_power`
equals `nonlin_power` at the default identifier. -/
theorem C5_matter_power_wrappers_delegate (c : Cosmo) (k a : Val) :
    linear_matter_power c k a = linear_power c k a DEFAULT_POWER_SPECTRUM ∧
    nonlin_matter_power c k a = nonlin_power c k a DEFAULT_POWER_SPECTRUM :=
  ⟨rfl, rfl⟩

/-- C7: `sigma8(context, spectrum_id)` returns exactly the value of `sigmaR`
at radius `8 / h` (h read from the context) with scale factor 1 (the
`sigmaR` default) and the same spectrum identifier; and the returned value
does not depend on the stored sigma8 parameter, so it is the same whether or
not the cache-fill branch executes. -/
theorem C7_sigma8_is_sigmaR_at_8_over_h (e : Engine) (c : Cosmo)
    (id : String) :
    (sigma8 e c id).result = (sigmaR e c (Val.scalar (8 / c.h)) 1 id).result ∧
    ∀ v, (sigma8 e { c with sigma8 := v } id).result
        = (sigma8 e c id).result := by
  refine ⟨sigma8_result_eq e c id, fun v => ?_⟩
  rw [sigma8_result_eq e { c with sigma8 := v } id, sigma8_result_eq e c id]
  exact sigmaR_result_sigma8_indep e c v (Val.scalar (8 / c.h)) 1 id

/-- C9 counterexample: `sigmaM` does not leave the context's state
unchanged — on a context whose variance tables are not yet built it triggers
the `compute_sigma` table build, flipping the engine handle's table flag. -/
theorem C9_counterexample_sigmaM_mutates :
    cosSample.cosmo.sigma_computed = false ∧
    (sigmaM engOk cosSample (Val.scalar 100) 1).cosmo.cosmo.sigma_computed
      = true :=
  ⟨rfl, rfl⟩

/-- C9 amended: the module writes the context in exactly two code paths —
the sigma8 cache-fill inside `sigma8` (which changes at most the stored
sigma8 parameter) and the idempotent `compute_sigma` table build inside
`sigmaM`; `sigmaR`, `sigmaV` and `kNL` leave the context unchanged (and
`linear_power`, `nonlin_power` and the two matter wrappers only read the
context, returning a spectrum value with no state output at all). -/
theorem C9_amended_write_paths (e : Engine) (c : Cosmo) (M R aV : Val)
    (a : ℚ) (id : String) :
    (sigmaR e c R a id).cosmo = c ∧
    (sigmaV e c R a id).cosmo = c ∧
    (kNL e c aV id).cosmo = c ∧
    (sigmaM e c M a).cosmo = compute_sigma c ∧
    compute_sigma (compute_sigma c) = compute_sigma c ∧
    { (sigma8 e c id).cosmo with sigma8 := c.sigma8 } = c := by
  refine ⟨sigmaR_cosmo_eq e c R a id, sigmaV_cosmo_eq e c R a id,
    kNL_cosmo_eq e c aV id, sigmaM_cosmo_eq e c M a, rfl, ?_⟩
  rcases sigma8_cosmo_cases e c id with hcase | ⟨v, hcase⟩
  · rw [hcase]
  · rw [hcase]
    rfl

/-- C1: for `sigmaM`, `sigmaR`, `sigmaV` and `kNL`, the output shape mirrors
the input shape of the varying argument (M, R, or a): a scalar input yields
a scalar result (not a length-1 array) and an array input of length n yields
an array result of length n, whenever the engine call returns a
length-matching array with zero status. -/
theorem C1_output_shape_mirrors_input (e : Engine) (c : Cosmo) (id : String)
    (psp : Nat) (hp : parse_pk2d c id true = .ok psp) :
    (∀ x a y, e.sigM_vec (compute_sigma c).cosmo a [e.log10 x] 1 0 = ([y], 0) →
      (sigmaM e c (Val.scalar x) a).result = .ok (Val.scalar y)) ∧
    (∀ xs a ys, e.sigM_vec (compute_sigma c).cosmo a (xs.map e.log10)
        xs.length 0 = (ys, 0) → ys.length = xs.length →
      ∃ out, (sigmaM e c (Val.array xs) a).result = .ok (Val.array out) ∧
        out.length = xs.length) ∧
    (∀ x a y, e.sigmaR_vec c.cosmo psp a [x] 1 0 = ([y], 0) →
      (sigmaR e c (Val.scalar x) a id).result = .ok (Val.scalar y)) ∧
    (∀ xs a ys, e.sigmaR_vec c.cosmo psp a xs xs.length 0 = (ys, 0) →
      ys.length = xs.length →
      ∃ out, (sigmaR e c (Val.array xs) a id).result = .ok (Val.array out) ∧
        out.length = xs.length) ∧
    (∀ x a y, e.sigmaV_vec c.cosmo psp a [x] 1 0 = ([y], 0) →
      (sigmaV e c (Val.scalar x) a id).result = .ok (Val.scalar y)) ∧
    (∀ xs a ys, e.sigmaV_vec c.cosmo psp a xs xs.length 0 = (ys, 0) →
      ys.length = xs.length →
      ∃ out, (sigmaV e c (Val.array xs) a id).result = .ok (Val.array out) ∧
        out.length = xs.length) ∧
    (∀ x y, e.kNL_vec c.cosmo psp [x] 1 0 = ([y], 0) →
      (kNL e c (Val.scalar x) id).result = .ok (Val.scalar y)) ∧
    (∀ xs ys, e.kNL_vec c.cosmo psp xs xs.length 0 = (ys, 0) →
      ys.length = xs.length →
      ∃ out, (kNL e c (Val.array xs) id).result = .ok (Val.array out) ∧
        out.length = xs.length) := by
  refine ⟨fun x a y he => sigmaM_ok_scalar e c x a y he,
    fun xs a ys he hl => ⟨ys, sigmaM_ok_array e c xs a ys he, hl⟩,
    fun x a y he => sigmaR_ok_scalar e c x a y id psp hp he,
    fun xs a ys he hl => ⟨ys, sigmaR_ok_array e c xs a id psp ys hp he, hl⟩,
    fun x a y he => sigmaV_ok_scalar e c x a y id psp hp he,
    fun xs a ys he hl => ⟨ys, sigmaV_ok_array e c xs a id psp ys hp he, hl⟩,
    fun x y he => kNL_ok_scalar e c x y id psp hp he,
    fun xs ys he hl => ⟨ys, kNL_ok_array e c xs id psp ys hp he, hl⟩⟩

/-- C1 witness: the shape contract instantiated on the sample engine and
context, for a scalar mass and a length-2 radius array. -/
theorem C1_witness :
    (sigmaM engOk cosSample (Val.scalar 100) 1).result = .ok (Val.scalar 5) ∧
    ∃ out, (sigmaR engOk cosSample (Val.array [3, 9]) 1
        DEFAULT_POWER_SPECTRUM).result = .ok (Val.array out) ∧
      out.length = 2 :=
  ⟨(C1_output_shape_mirrors_input engOk cosSample DEFAULT_POWER_SPECTRUM 11
      rfl).1 100 1 5 rfl,
    (C1_output_shape_mirrors_input engOk cosSample DEFAULT_POWER_SPECTRUM 11
      rfl).2.2.2.1 [3, 9] 1 [4/5, 4/5] rfl rfl⟩

/-- C2: for every call of `sigmaM`, `sigmaR`, `sigmaV` or `kNL`, a non-zero
engine status makes the operation raise an error carrying the context's
diagnostic state with no numeric result, while a zero status makes it return
the engine's result without raising. -/
theorem C2_engine_status_policy (e : Engine) (c : Cosmo) (id : String)
    (psp : Nat) (hp : parse_pk2d c id true = .ok psp) :
    (∀ M a ys s, e.sigM_vec (compute_sigma c).cosmo a
        ((atleast_1d M).map e.log10) (atleast_1d M).length 0 = (ys, s) →
      (s ≠ 0 → (sigmaM e c M a).result = .error (.engine s c.diag)) ∧
      (s = 0 → ys.length = (atleast_1d M).length →
        ∃ v, (sigmaM e c M a).result = .ok v)) ∧
    (∀ R a ys s, e.sigmaR_vec c.cosmo psp a (atleast_1d R)
        (atleast_1d R).length 0 = (ys, s) →
      (s ≠ 0 → (sigmaR e c R a id).result = .error (.engine s c.diag)) ∧
      (s = 0 → ys.length = (atleast_1d R).length →
        ∃ v, (sigmaR e c R a id).result = .ok v)) ∧
    (∀ R a ys s, e.sigmaV_vec c.cosmo psp a (atleast_1d R)
        (atleast_1d R).length 0 = (ys, s) →
      (s ≠ 0 → (sigmaV e c R a id).result = .error (.engine s c.diag)) ∧
      (s = 0 → ys.length = (atleast_1d R).length →
        ∃ v, (sigmaV e c R a id).result = .ok v)) ∧
    (∀ aV ys s, e.kNL_vec c.cosmo psp (atleast_1d aV)
        (atleast_1d aV).length 0 = (ys, s) →
      (s ≠ 0 → (kNL e c aV id).result = .error (.engine s c.diag)) ∧
      (s = 0 → ys.length = (atleast_1d aV).length →
        ∃ v, (kNL e c aV id).result = .ok v)) := by
  refine ⟨?_, ?_, ?_, ?_⟩
  · intro M a ys s he
    refine ⟨fun hs => sigmaM_err e c M a ys s he hs, fun hs hl => ?_⟩
    subst hs
    cases M with
    | scalar x =>
      simp [atleast_1d] at he hl
      rcases List.length_eq_one.mp hl with ⟨y, rfl⟩
      exact ⟨Val.scalar y, sigmaM_ok_scalar e c x a y (by simpa using he)⟩
    | array xs =>
      exact ⟨Val.array ys,
        sigmaM_ok_array e c xs a ys (by simpa [atleast_1d] using he)⟩
  · intro R a ys s he
    refine ⟨fun hs => sigmaR_err e c R a id psp ys s hp he hs,
      fun hs hl => ?_⟩
    subst hs
    cases R with
    | scalar x =>
      simp [atleast_1d] at he hl
      rcases List.length_eq_one.mp hl with ⟨y, rfl⟩
      exact ⟨Val.scalar y, sigmaR_ok_scalar e c x a y id psp hp
        (by simpa using he)⟩
    | array xs =>
      exact ⟨Val.array ys, sigmaR_ok_array e c xs a id psp ys hp
        (by simpa [atleast_1d] using he)⟩
  · intro R a ys s he
    refine ⟨fun hs => sigmaV_err e c R a id psp ys s hp he hs,
      fun hs hl => ?_⟩
    subst hs
    cases R with
    | scalar x =>
      simp [atleast_1d] at he hl
      rcases List.length_eq_one.mp hl with ⟨y, rfl⟩
      exact ⟨Val.scalar y, sigmaV_ok_scalar e c x a y id psp hp
        (by simpa using he)⟩
    | array xs =>
      exact ⟨Val.array ys, sigmaV_ok_array e c xs a id psp ys hp
        (by simpa [atleast_1d] using he)⟩
  · intro aV ys s he
    refine ⟨fun hs => kNL_err e c aV id psp ys s hp he hs,
      fun hs hl => ?_⟩
    subst hs
    cases aV with
    | scalar x =>
      simp [atleast_1d] at he hl
      rcases List.length_eq_one.mp hl with ⟨y, rfl⟩
      exact ⟨Val.scalar y, kNL_ok_scalar e c x y id psp hp
        (by simpa using he)⟩
    | array xs =>
      exact ⟨Val.array ys, kNL_ok_array e c xs id psp ys hp
        (by simpa [atleast_1d] using he)⟩

/-- C2 witness: a failing engine (status 2) makes `sigmaM` raise the engine
error with the sample context's diagnostic state, and a succeeding engine
makes `sigmaR` return a value. -/
theorem C2_witness :
    (sigmaM engBad cosSample (Val.scalar 100) 1).result
      = .error (.engine 2 cosSample.diag) ∧
    ∃ v, (sigmaR engOk cosSample (Val.scalar 3) 1
        DEFAULT_POWER_SPECTRUM).result = .ok v :=
  ⟨((C2_engine_status_policy engBad cosSample DEFAULT_POWER_SPECTRUM 11
      rfl).1 (Val.scalar 100) 1 [] 2 rfl).1 (by decide),
    ((C2_engine_status_policy engOk cosSample DEFAULT_POWER_SPECTRUM 11
      rfl).2.1 (Val.scalar 3) 1 [4/5] 0 rfl).2 rfl rfl⟩

/-- C10: for `sigmaM`, `sigmaR`, `sigmaV` and `kNL`, a length-1 array input
for the varying argument yields a length-1 array result while the same
engine behaviour on a scalar input yields a scalar: the unwrapping applies
only to 0-dimensional inputs, so callers can distinguish the two by the
output type. -/
theorem C10_length1_array_not_unwrapped (e : Engine) (c : Cosmo) (id : String)
    (psp : Nat) (hp : parse_pk2d c id true = .ok psp) :
    (∀ x a y, e.sigM_vec (compute_sigma c).cosmo a [e.log10 x] 1 0
        = ([y], 0) →
      (sigmaM e c (Val.array [x]) a).result = .ok (Val.array [y]) ∧
      (sigmaM e c (Val.scalar x) a).result = .ok (Val.scalar y) ∧
      Val.array [y] ≠ Val.scalar y) ∧
    (∀ x a y, e.sigmaR_vec c.cosmo psp a [x] 1 0 = ([y], 0) →
      (sigmaR e c (Val.array [x]) a id).result = .ok (Val.array [y]) ∧
      (sigmaR e c (Val.scalar x) a id).result = .ok (Val.scalar y) ∧
      Val.array [y] ≠ Val.scalar y) ∧
    (∀ x a y, e.sigmaV_vec c.cosmo psp a [x] 1 0 = ([y], 0) →
      (sigmaV e c (Val.array [x]) a id).result = .ok (Val.array [y]) ∧
      (sigmaV e c (Val.scalar x) a id).result = .ok (Val.scalar y) ∧
      Val.array [y] ≠ Val.scalar y) ∧
    (∀ x y, e.kNL_vec c.cosmo psp [x] 1 0 = ([y], 0) →
      (kNL e c (Val.array [x]) id).result = .ok (Val.array [y]) ∧
      (kNL e c (Val.scalar x) id).result = .ok (Val.scalar y) ∧
      Val.array [y] ≠ Val.scalar y) := by
  refine ⟨fun x a y he => ⟨sigmaM_ok_array e c [x] a [y] (by simpa using he),
      sigmaM_ok_scalar e c x a y he, by simp⟩,
    fun x a y he => ⟨sigmaR_ok_array e c [x] a id psp [y] hp
        (by simpa using he),
      sigmaR_ok_scalar e c x a y id psp hp he, by simp⟩,
    fun x a y he => ⟨sigmaV_ok_array e c [x] a id psp [y] hp
        (by simpa using he),
      sigmaV_ok_scalar e c x a y id psp hp he, by simp⟩,
    fun x y he => ⟨kNL_ok_array e c [x] id psp [y] hp (by simpa using he),
      kNL_ok_scalar e c x y id psp hp he, by simp⟩⟩

/-- C10 witness: on the sample engine and context, the length-1 array mass
input returns a length-1 array while the scalar mass input returns a
scalar. -/
theorem C10_witness :
    (sigmaM engOk cosSample (Val.array [100]) 1).result
      = .ok (Val.array [5]) ∧
    (sigmaM engOk cosSample (Val.scalar 100) 1).result
      = .ok (Val.scalar 5) ∧
    Val.array [(5 : ℚ)] ≠ Val.scalar 5 :=
  (C10_length1_array_not_unwrapped engOk cosSample DEFAULT_POWER_SPECTRUM 11
    rfl).1 100 1 5 rfl

/-- C3: calling `sigma8` on a context whose stored sigma8 is undefined (the
NaN sentinel) leaves the context's sigma8 field equal to the returned value;
calling `sigma8` again on the resulting context (sigma8 now defined) does
not raise and returns the same computed value. -/
theorem C3_sigma8_cache_fill_and_recall (e : Engine) (c : Cosmo)
    (id : String) (psp : Nat) (y : ℚ)
    (h8 : c.sigma8 = none)
    (hp : parse_pk2d c id true = .ok psp)
    (he : e.sigmaR_vec c.cosmo psp 1 [8 / c.h] 1 0 = ([y], 0)) :
    (sigma8 e c id).result = .ok (Val.scalar y) ∧
    (sigma8 e c id).cosmo.sigma8 = some (Val.scalar y) ∧
    (sigma8 e (sigma8 e c id).cosmo id).result = .ok (Val.scalar y) := by
  have hres : (sigmaR e c (Val.scalar (8 / c.h)) 1 id).result
      = .ok (Val.scalar y) := sigmaR_ok_scalar e c (8 / c.h) 1 y id psp hp he
  have h1 : (sigma8 e c id).result = .ok (Val.scalar y) := by
    rw [sigma8_result_eq]
    exact hres
  have hc2 : (sigma8 e c id).cosmo = fill_params_sigma8 c (Val.scalar y) := by
    simp only [sigma8]
    rw [hres]
    simp [isnan_sigma8, h8]
  refine ⟨h1, by rw [hc2]; rfl, ?_⟩
  rw [hc2, sigma8_result_eq]
  have hstep : (sigmaR e (fill_params_sigma8 c (Val.scalar y))
      (Val.scalar (8 / (fill_params_sigma8 c (Val.scalar y)).h)) 1 id).result
      = (sigmaR e c (Val.scalar (8 / c.h)) 1 id).result :=
    sigmaR_result_sigma8_indep e c (some (Val.scalar y))
      (Val.scalar (8 / c.h)) 1 id
  exact hstep.trans hres

/-- C3 witness: on the sample engine and context with undefined sigma8, the
call fills the field with the returned 4/5 and a second call returns the
same value. -/
theorem C3_witness :
    (sigma8 engOk cosSample DEFAULT_POWER_SPECTRUM).result
      = .ok (Val.scalar (4/5)) ∧
    (sigma8 engOk cosSample DEFAULT_POWER_SPECTRUM).cosmo.sigma8
      = some (Val.scalar (4/5)) ∧
    (sigma8 engOk (sigma8 engOk cosSample DEFAULT_POWER_SPECTRUM).cosmo
      DEFAULT_POWER_SPECTRUM).result = .ok (Val.scalar (4/5)) :=
  C3_sigma8_cache_fill_and_recall engOk cosSample DEFAULT_POWER_SPECTRUM 11
    (4/5) rfl rfl rfl

/-- C4 counterexample: on a context whose stored sigma8 is already defined
(42, while the engine computes 4/5), `sigma8` performs no write — the field
keeps its old value 42 instead of receiving the freshly computed 4/5, so
the write-back is skipped, not performed on every call. -/
theorem C4_counterexample_writeback_skipped :
    (sigma8 engOk cosDefined DEFAULT_POWER_SPECTRUM).result
      = .ok (Val.scalar (4/5)) ∧
    (sigma8 engOk cosDefined DEFAULT_POWER_SPECTRUM).cosmo.sigma8
      = some (Val.scalar 42) ∧
    (42 : ℚ) ≠ 4/5 :=
  ⟨rfl, rfl, by norm_num⟩

/-- C4 amended: the write-back is performed only when the stored sigma8 is
the undefined NaN sentinel; when it is already defined, `sigma8` skips the
write and leaves the context entirely unchanged. -/
theorem C4_amended_writeback_only_when_nan (e : Engine) (c : Cosmo) (v : Val)
    (id : String) (hv : c.sigma8 = some v) :
    (sigma8 e c id).cosmo = c := by
  simp only [sigma8]
  cases hr : (sigmaR e c (Val.scalar (8 / c.h)) 1 id).result with
  | error err => exact sigmaR_cosmo_eq e c (Val.scalar (8 / c.h)) 1 id
  | ok s =>
    have hn : isnan_sigma8 c = false := by simp [isnan_sigma8, hv]
    simp [hn]

/-- C4 witness: on the sample context with sigma8 already defined, the call
leaves the context unchanged. -/
theorem C4_witness :
    (sigma8 engOk cosDefined DEFAULT_POWER_SPECTRUM).cosmo = cosDefined :=
  C4_amended_writeback_only_when_nan engOk cosDefined (Val.scalar 42)
    DEFAULT_POWER_SPECTRUM rfl

/-- C6: on every `sigmaM` call, the `compute_sigma` table build is the first
engine interaction, before the evaluation; the engine call is present in the
trace carrying exactly the once-applied base-10 logarithms of the
1-d-promoted masses and the post-`compute_sigma` handle; and every
`sigM_vec` call in the trace carries those exact arguments (so the engine
never receives the raw or a doubly-transformed mass). -/
theorem C6_compute_sigma_then_log10_once (e : Engine) (c : Cosmo) (M : Val)
    (a : ℚ) :
    (sigmaM e c M a).trace.head? = some Event.computeSigma ∧
    Event.callSigM (compute_sigma c).cosmo a ((atleast_1d M).map e.log10)
      ((atleast_1d M).map e.log10).length 0 ∈ (sigmaM e c M a).trace ∧
    ∀ hh aa lM n st,
      Event.callSigM hh aa lM n st ∈ (sigmaM e c M a).trace →
      hh = (compute_sigma c).cosmo ∧ lM = (atleast_1d M).map e.log10 := by
  rw [sigmaM_trace_eq]
  refine ⟨rfl, by simp, ?_⟩
  intro hh aa lM n st hmem
  simp at hmem
  exact ⟨hmem.1, hmem.2.2.1⟩

/-- C6 witness: on the sample engine and context with scalar mass 100, the
first trace event is the table build and the engine call carries the
once-transformed log-mass `[99]` and the post-build handle. -/
theorem C6_witness :
    (sigmaM engOk cosSample (Val.scalar 100) 1).trace.head?
      = some Event.computeSigma ∧
    ((⟨0, true⟩ : EngineHandle) = (compute_sigma cosSample).cosmo ∧
      ([99] : List ℚ) = (atleast_1d (Val.scalar 100)).map engOk.log10) :=
  ⟨(C6_compute_sigma_then_log10_once engOk cosSample (Val.scalar 100) 1).1,
    (C6_compute_sigma_then_log10_once engOk cosSample (Val.scalar 100) 1).2.2
      ⟨0, true⟩ 1 [99] 1 0
      (by
        rw [sigmaM_trace_eq]
        simp [engOk, cosSample, compute_sigma, atleast_1d]
        norm_num)⟩

/-- C8: `sigmaR`, `sigmaV` and `kNL` resolve their power-spectrum argument
through `parse_pk2d` with the linear tag set: an identifier registered only
among the non-linear spectra is rejected at resolution time — the operation
raises the resolution error and makes no engine call at all. -/
theorem C8_linear_tag_resolution (e : Engine) (c : Cosmo) (id : String)
    (R aV : Val) (a : ℚ) (pk : Pk2D)
    (_hnl : List.lookup id c.pk_nonlin = some pk)
    (hlin : List.lookup id c.pk_linear = none) :
    ((sigmaR e c R a id).result = .error (.unknownSpectrum id) ∧
      (sigmaR e c R a id).trace = []) ∧
    ((sigmaV e c R a id).result = .error (.unknownSpectrum id) ∧
      (sigmaV e c R a id).trace = []) ∧
    ((kNL e c aV id).result = .error (.unknownSpectrum id) ∧
      (kNL e c aV id).trace = []) := by
  have hp : parse_pk2d c id true = .error (.unknownSpectrum id) := by
    simp [parse_pk2d, hlin]
  refine ⟨⟨?_, ?_⟩, ⟨?_, ?_⟩, ⟨?_, ?_⟩⟩ <;>
    simp [sigmaR, sigmaV, kNL, hp]

/-- C8 witness: on a context whose default identifier is registered only as
a non-linear spectrum, all three operations reject it with no engine
call. -/
theorem C8_witness :
    ((sigmaR engOk cosNlOnly (Val.scalar 1) 1 DEFAULT_POWER_SPECTRUM).result
        = .error (.unknownSpectrum DEFAULT_POWER_SPECTRUM) ∧
      (sigmaR engOk cosNlOnly (Val.scalar 1) 1 DEFAULT_POWER_SPECTRUM).trace
        = []) ∧
    ((sigmaV engOk cosNlOnly (Val.scalar 1) 1 DEFAULT_POWER_SPECTRUM).result
        = .error (.unknownSpectrum DEFAULT_POWER_SPECTRUM) ∧
      (sigmaV engOk cosNlOnly (Val.scalar 1) 1 DEFAULT_POWER_SPECTRUM).trace
        = []) ∧
    ((kNL engOk cosNlOnly (Val.scalar 1) DEFAULT_POWER_SPECTRUM).result
        = .error (.unknownSpectrum DEFAULT_POWER_SPECTRUM) ∧
      (kNL engOk cosNlOnly (Val.scalar 1) DEFAULT_POWER_SPECTRUM).trace
        = []) :=
  C8_linear_tag_resolution engOk cosNlOnly DEFAULT_POWER_SPECTRUM
    (Val.scalar 1) (Val.scalar 1) 1 pkNlSample rfl rfl
